import Mathlib

/-!
# Expense tracker backend: dashboard, grouping, add/delete handlers, trip channel

A shallow embedding of the request handlers of `backend/controllers/*.js` and of the
socket handlers of `backend/server.js`.

Conventions of the embedding

* A collection is the list of its documents in storage order.
* `amount` and `date` are integers: an amount in the unit of the record, a date as
  milliseconds since the epoch (the time value of a JavaScript `Date`).
* Library behaviour the handlers rely on but that is not part of the repository
  (ObjectId casting, `Date` parsing, string-to-number coercion, the Mongoose
  schemas under `models/`) enters every handler as an explicit argument.
* `find(...).sort({date: -1})` and `Array.prototype.sort` are stable sorts.
-/

namespace ExpenseTracker

/-! ## Data model -/

/-- An Income document as the controllers read it. -/
structure Income where
  id : String
  userId : String
  icon : String
  source : String
  description : String
  amount : Int
  date : Int
deriving DecidableEq, Repr

/-- An Expense document as the controllers read it. -/
structure Expense where
  id : String
  userId : String
  tripId : Option String
  icon : String
  category : String
  description : String
  amount : Int
  date : Int
deriving DecidableEq, Repr

/-- An object spread `{...txn, type: t}`: the document and the added `type` field. -/
structure Tagged (α : Type) where
  doc : α
  type : String
deriving DecidableEq, Repr

/-- A document of either collection, as merged by the dashboard. -/
inductive Transaction where
  | income (r : Income)
  | expense (r : Expense)
deriving DecidableEq, Repr

/-- The `date` field of a merged document. -/
def Transaction.date : Transaction → Int
  | .income r => r.date
  | .expense r => r.date

/-! ## Sorting by date, newest first -/

/-- The order of `.sort({ date: -1 })` and of the comparator
`(a, b) => new Date(b.date) - new Date(a.date)`: `a` may stand before `b`. -/
def DateDesc {α : Type} (date : α → Int) (a b : α) : Prop := date b ≤ date a

instance instDecidableDateDesc {α : Type} (date : α → Int) : DecidableRel (DateDesc date) :=
  fun a b => inferInstanceAs (Decidable (date b ≤ date a))

instance instTotalDateDesc {α : Type} (date : α → Int) : IsTotal α (DateDesc date) :=
  ⟨fun a b => le_total (date b) (date a)⟩

instance instTransDateDesc {α : Type} (date : α → Int) : IsTrans α (DateDesc date) :=
  ⟨fun _ _ _ hab hbc => le_trans hbc hab⟩

/-- A stable sort by descending date. -/
def sortByDateDesc {α : Type} (date : α → Int) (xs : List α) : List α :=
  xs.insertionSort (DateDesc date)

/-! ## dashboardController.js -/

/-- The pipeline `[{ $match: { userId } }, { $group: { _id: null, total: { $sum: '$amount' } } }]`:
no output document when nothing matches, otherwise one document carrying the total. -/
def aggregateTotal {α : Type} (userId : α → String) (amount : α → Int) (coll : List α)
    (uid : String) : List Int :=
  match coll.filter (fun r => userId r = uid) with
  | [] => []
  | r :: rs => [((r :: rs).map amount).sum]

/-- The expression `agg[0]?.total || 0`. -/
def totalOrZero (agg : List Int) : Int :=
  match agg.head? with
  | none => 0
  | some t => if t = 0 then 0 else t

/-- The expression `txns.reduce((sum, txn) => sum + txn.amount, 0)`. -/
def reduceAmount {α : Type} (amount : α → Int) (txns : List α) : Int :=
  txns.foldl (fun sum txn => sum + amount txn) 0

/-- Sixty days in milliseconds, `60 * 24 * 60 * 60 * 1000`. -/
def ms60Days : Int := 60 * 24 * 60 * 60 * 1000

/-- Thirty days in milliseconds, `30 * 24 * 60 * 60 * 1000`. -/
def ms30Days : Int := 30 * 24 * 60 * 60 * 1000

/-- The query `find({ userId, date: { $gte: cutoff } }).sort({ date: -1 })`. -/
def findSince {α : Type} (userId : α → String) (date : α → Int) (coll : List α)
    (uid : String) (cutoff : Int) : List α :=
  sortByDateDesc date (coll.filter (fun r => userId r = uid ∧ cutoff ≤ date r))

/-- The query `find({ userId }).sort({ date: -1 }).limit(5)`. -/
def findRecent {α : Type} (userId : α → String) (date : α → Int) (coll : List α)
    (uid : String) : List α :=
  (sortByDateDesc date (coll.filter (fun r => userId r = uid))).take 5

/-- A windowed summary `{ total, transactions }`. -/
structure Window (α : Type) where
  total : Int
  transactions : List α
deriving DecidableEq, Repr

/-- The JSON body of a successful dashboard response. -/
structure Dashboard where
  totalBalance : Int
  totalIncome : Int
  totalExpense : Int
  last30DaysExpenses : Window (Tagged Expense)
  last60DaysIncome : Window Income
  recentTransactions : List (Tagged Transaction)
deriving DecidableEq, Repr

/-- A dashboard response: the body with status 200, or a status with a message. -/
inductive DashboardResponse where
  | ok (body : Dashboard)
  | error (status : Nat) (message : String)
deriving DecidableEq, Repr

/-- The handler `getDashboardData`. `isValidObjectId` is the Mongoose predicate of that
name; `now60` and `now30` are the two readings of `Date.now()`, taken for the income
window and for the expense window. -/
def getDashboardData (isValidObjectId : String → Bool) (now60 now30 : Int)
    (incomes : List Income) (expenses : List Expense) (userId : String) : DashboardResponse :=
  if !isValidObjectId userId then
    .error 400 "Invalid user ID"
  else
    let totalIncome := totalOrZero (aggregateTotal Income.userId Income.amount incomes userId)
    let totalExpense := totalOrZero (aggregateTotal Expense.userId Expense.amount expenses userId)
    let last60DaysIncomeTransactions :=
      findSince Income.userId Income.date incomes userId (now60 - ms60Days)
    let incomeLast60Days := reduceAmount Income.amount last60DaysIncomeTransactions
    let last30DaysExpenseTransactions :=
      findSince Expense.userId Expense.date expenses userId (now30 - ms30Days)
    let expensesLast30Days := reduceAmount Expense.amount last30DaysExpenseTransactions
    let enrichedExpenses :=
      last30DaysExpenseTransactions.map (fun txn => (⟨txn, "expense"⟩ : Tagged Expense))
    let recentIncome := (findRecent Income.userId Income.date incomes userId).map
      (fun txn => (⟨Transaction.income txn, "income"⟩ : Tagged Transaction))
    let recentExpense := (findRecent Expense.userId Expense.date expenses userId).map
      (fun txn => (⟨Transaction.expense txn, "expense"⟩ : Tagged Transaction))
    let lastTransactions :=
      sortByDateDesc (fun t : Tagged Transaction => t.doc.date) (recentIncome ++ recentExpense)
    .ok { totalBalance := totalIncome - totalExpense
          totalIncome := totalIncome
          totalExpense := totalExpense
          last30DaysExpenses := ⟨expensesLast30Days, enrichedExpenses⟩
          last60DaysIncome := ⟨incomeLast60Days, last60DaysIncomeTransactions⟩
          recentTransactions := lastTransactions }

/-! ## JavaScript values of a request body -/

/-- A value read from `req.body`: a JSON scalar, an absent field (`undefined`), or an
object or array, of which only the string it converts to (`ToPrimitive`) is kept. -/
inductive JsValue where
  | undefined
  | null
  | bool (b : Bool)
  | number (n : Int)
  | string (s : String)
  | object (prim : String)
deriving DecidableEq, Repr

/-- JavaScript truthiness, so that `!v` is `!(truthy v)`. -/
def JsValue.truthy : JsValue → Bool
  | .undefined => false
  | .null => false
  | .bool b => b
  | .number n => decide (n ≠ 0)
  | .string s => decide (s ≠ "")
  | .object _ => true

/-- The abstract operation `ToNumber`; `none` is `NaN`. `strToNumber` is the conversion
of a string. -/
def JsValue.toNumber (strToNumber : String → Option Int) : JsValue → Option Int
  | .undefined => none
  | .null => some 0
  | .bool b => some (if b then 1 else 0)
  | .number n => some n
  | .string s => strToNumber s
  | .object prim => strToNumber prim

/-- The comparison `v <= 0`: false when `v` converts to `NaN`. -/
def JsValue.leZero (strToNumber : String → Option Int) (v : JsValue) : Bool :=
  match v.toNumber strToNumber with
  | none => false
  | some n => decide (n ≤ 0)

/-- The largest time value of a `Date`, 8.64e15 milliseconds. -/
def maxTimeValue : Int := 8640000000000000

/-- The time value of `new Date(v)`; `none` is an invalid date, for which `isNaN` holds.
`dateParse` is `Date.parse` on strings. -/
def newDate (dateParse : String → Option Int) : JsValue → Option Int
  | .undefined => none
  | .null => some 0
  | .bool b => some (if b then 1 else 0)
  | .number n => if -maxTimeValue ≤ n ∧ n ≤ maxTimeValue then some n else none
  | .string s => dateParse s
  | .object prim => dateParse prim

/-- The fields of `req.body` that the add handlers may read. -/
structure RequestBody where
  icon : JsValue
  source : JsValue
  category : JsValue
  amount : JsValue
  date : JsValue
  description : JsValue
deriving DecidableEq, Repr

/-- A JSON response of the income and expense controllers. -/
structure Response (α : Type) where
  status : Nat
  success : Bool
  message : String
  data : Option α
deriving DecidableEq, Repr

/-! ## incomeController.js and expenseController.js: add -/

/-- The object handed to `new Income({...})`. -/
structure IncomeInput where
  userId : String
  icon : JsValue
  source : JsValue
  description : JsValue
  amount : JsValue
  date : Int
deriving DecidableEq, Repr

/-- The object handed to `new Expense({...})`. -/
structure ExpenseInput where
  userId : String
  icon : JsValue
  description : JsValue
  category : JsValue
  amount : JsValue
deriving DecidableEq, Repr

/-- The handler `addIncome`. `incomeModel` stands for the schema of `models/Income.js`:
it yields the saved document, or `none` when `save()` throws. -/
def addIncome (strToNumber : String → Option Int) (dateParse : String → Option Int)
    (incomeModel : IncomeInput → Option Income)
    (incomes : List Income) (userId : String) (body : RequestBody) :
    Response Income × List Income :=
  if !body.source.truthy || !body.amount.truthy || !body.date.truthy then
    (⟨400, false, "Please fill all required fields", none⟩, incomes)
  else if body.amount.leZero strToNumber then
    (⟨400, false, "Amount must be greater than 0", none⟩, incomes)
  else
    match newDate dateParse body.date with
    | none => (⟨400, false, "Invalid date format", none⟩, incomes)
    | some parsedDate =>
      match incomeModel ⟨userId, body.icon, body.source, body.description, body.amount,
          parsedDate⟩ with
      | none => (⟨500, false, "Server error", none⟩, incomes)
      | some newIncome =>
        (⟨201, true, "Income added successfully", some newIncome⟩, incomes ++ [newIncome])

/-- The handler `addExpense`. `expenseModel` stands for the schema of `models/Expense.js`:
it yields the saved document, or `none` when `save()` throws. -/
def addExpense (strToNumber : String → Option Int)
    (expenseModel : ExpenseInput → Option Expense)
    (expenses : List Expense) (userId : String) (body : RequestBody) :
    Response Expense × List Expense :=
  if !body.icon.truthy || !body.description.truthy || !body.category.truthy
      || !body.amount.truthy then
    (⟨400, false, "All fields are required", none⟩, expenses)
  else if body.amount.leZero strToNumber then
    (⟨400, false, "Amount must be greater than 0", none⟩, expenses)
  else
    match expenseModel ⟨userId, body.icon, body.description, body.category, body.amount⟩ with
    | none => (⟨500, false, "Server error", none⟩, expenses)
    | some expense =>
      (⟨201, true, "Expense added successfully", some expense⟩, expenses ++ [expense])

/-! ## incomeController.js and expenseController.js: delete -/

/-- The query `findOneAndDelete(filter)`: the first matching document, removed. -/
def findOneAndDelete {α : Type} (filter : α → Bool) (coll : List α) : Option α × List α :=
  (coll.find? filter, coll.eraseP filter)

/-- The handler `deleteExpense`. `castObjectId` tells whether Mongoose can cast a string
to an ObjectId; a failed cast of the filter throws. -/
def deleteExpense (castObjectId : String → Bool) (expenses : List Expense)
    (userId : String) (id : String) : Response Expense × List Expense :=
  if !castObjectId id || !castObjectId userId then
    (⟨500, false, "Server error", none⟩, expenses)
  else
    match findOneAndDelete (fun r : Expense => decide (r.id = id ∧ r.userId = userId))
        expenses with
    | (none, _) => (⟨404, false, "Expense not found", none⟩, expenses)
    | (some _, rest) => (⟨200, true, "Expense deleted successfully", none⟩, rest)

/-- The handler `deleteIncome`, with `castObjectId` as in `deleteExpense`. -/
def deleteIncome (castObjectId : String → Bool) (incomes : List Income)
    (userId : String) (id : String) : Response Income × List Income :=
  if !castObjectId id || !castObjectId userId then
    (⟨500, false, "Server error", none⟩, incomes)
  else
    match findOneAndDelete (fun r : Income => decide (r.id = id ∧ r.userId = userId))
        incomes with
    | (none, _) => (⟨404, false, "Income not found", none⟩, incomes)
    | (some _, rest) => (⟨200, true, "Income deleted successfully", none⟩, rest)

/-! ## incomeController.js and expenseController.js: grouping by day and pagination -/

/-- The order in which `$sort` compares two `_id` strings: lexicographic by code point. -/
def keyLe (a b : String) : Prop := a.data.map Char.toNat ≤ b.data.map Char.toNat

instance instDecidableKeyLe : DecidableRel keyLe :=
  fun a b => inferInstanceAs (Decidable (a.data.map Char.toNat ≤ b.data.map Char.toNat))

/-- The order of `{ $sort: { _id: -1 } }`: `a` may stand before `b`. -/
def KeyDesc (a b : String) : Prop := keyLe b a

instance instDecidableKeyDesc : DecidableRel KeyDesc :=
  fun a b => inferInstanceAs (Decidable (keyLe b a))

instance instTotalKeyDesc : IsTotal String KeyDesc :=
  ⟨fun a b => le_total (b.data.map Char.toNat) (a.data.map Char.toNat)⟩

instance instTransKeyDesc : IsTrans String KeyDesc :=
  ⟨fun _ _ _ hab hbc => le_trans hbc hab⟩

/-- One output document of the `$group` stage: the day key and the pushed documents. -/
structure Group (α : Type) where
  _id : String
  docs : List α
deriving DecidableEq, Repr

/-- The stages `$group` by `$dateToString` of `date` with `$push: "$$ROOT"`, then
`$sort` by `_id` descending. `dateToString` is the `%Y-%m-%d` formatting. -/
def groupByDate {α : Type} (dateToString : Int → String) (date : α → Int)
    (matched : List α) : List (Group α) :=
  (((matched.map (fun r => dateToString (date r))).dedup).insertionSort KeyDesc).map
    (fun k => ⟨k, matched.filter (fun r => dateToString (date r) = k)⟩)

/-- A relative index of `Array.prototype.slice`, clamped into `0 .. len`. -/
def relativeIndex (len : Nat) (k : Int) : Nat :=
  if k < 0 then (len + k).toNat else min k.toNat len

/-- The method `xs.slice(start, end)`. -/
def slice {α : Type} (xs : List α) (start stop : Int) : List α :=
  let first := relativeIndex xs.length start
  let final := relativeIndex xs.length stop
  (xs.drop first).take (final - first)

/-- The query parameters read by the grouping handlers. `page` and `limit` are numbers
when supplied; `date` is the time value of `new Date(date)` when a date is supplied. -/
structure Query where
  page : Option Int
  limit : Option Int
  date : Option Int
  tripId : Option String
deriving DecidableEq, Repr

/-- The body of a grouping response. -/
structure Page (α : Type) where
  data : List (Group α)
  totalPages : Nat
  currentPage : Int
deriving DecidableEq, Repr

/-- A grouping response: the page with status 200, or a status with a message. -/
inductive PageResponse (α : Type) where
  | ok (body : Page α)
  | error (status : Nat) (message : String)
deriving DecidableEq, Repr

/-- The expression `grouped.length || 1`. -/
def lengthOrOne {α : Type} (grouped : List α) : Nat :=
  if grouped.length = 0 then 1 else grouped.length

/-- The lines that paginate `grouped` and build the response body. -/
def paginate {α : Type} (grouped : List (Group α)) (page limit : Int) : Page α :=
  ⟨slice grouped ((page - 1) * limit) (page * limit), lengthOrOne grouped, page⟩

/-- The `$match` stage of `getExpensesByDate`: the user's documents, of the trip when a
`tripId` is supplied, of the day when a `date` is supplied. -/
def matchExpenses (startOfDay endOfDay : Int → Int) (expenses : List Expense)
    (userId : String) (tripId : Option String) (date : Option Int) : List Expense :=
  expenses.filter (fun r =>
    decide (r.userId = userId)
      && (match tripId with
          | none => true
          | some t => decide (r.tripId = some t))
      && (match date with
          | none => true
          | some d => decide (startOfDay d ≤ r.date ∧ r.date ≤ endOfDay d)))

/-- The constant `grouped` of `getExpensesByDate`. -/
def groupedExpenses (startOfDay endOfDay : Int → Int) (dateToString : Int → String)
    (expenses : List Expense) (userId : String) (tripId : Option String)
    (date : Option Int) : List (Group Expense) :=
  groupByDate dateToString Expense.date
    (matchExpenses startOfDay endOfDay expenses userId tripId date)

/-- The handler `getExpensesByDate`. `objectId` tells whether `new ObjectId(s)` accepts
`s` (it throws otherwise); `startOfDay` and `endOfDay` are `setHours(0, 0, 0, 0)` and
`setHours(23, 59, 59, 999)` in the server's time zone. -/
def getExpensesByDate (objectId : String → Bool) (startOfDay endOfDay : Int → Int)
    (dateToString : Int → String) (expenses : List Expense) (userId : String)
    (query : Query) : PageResponse Expense :=
  let page := query.page.getD 1
  let limit := query.limit.getD 1
  let tripId := query.tripId.filter (fun t => decide (t ≠ ""))
  if !objectId userId then .error 500 "Server error"
  else if tripId.any (fun t => !objectId t) then .error 500 "Server error"
  else
    .ok (paginate
      (groupedExpenses startOfDay endOfDay dateToString expenses userId tripId query.date)
      page limit)

/-- The `$match` stage of `getIncomesByDate`: the user's documents of the day of `date`,
of the current day when no `date` is supplied. -/
def matchIncomes (startOfDay endOfDay : Int → Int) (now : Int) (incomes : List Income)
    (userId : String) (date : Option Int) : List Income :=
  let start := startOfDay (date.getD now)
  let stop := endOfDay start
  incomes.filter (fun r =>
    decide (r.userId = userId) && decide (start ≤ r.date ∧ r.date ≤ stop))

/-- The constant `grouped` of `getIncomesByDate`. -/
def groupedIncomes (startOfDay endOfDay : Int → Int) (dateToString : Int → String)
    (now : Int) (incomes : List Income) (userId : String) (date : Option Int) :
    List (Group Income) :=
  groupByDate dateToString Income.date (matchIncomes startOfDay endOfDay now incomes userId date)

/-- The handler `getIncomesByDate`, with the arguments of `getExpensesByDate` and `now`,
the time value of `new Date()`. -/
def getIncomesByDate (objectId : String → Bool) (startOfDay endOfDay : Int → Int)
    (dateToString : Int → String) (now : Int) (incomes : List Income) (userId : String)
    (query : Query) : PageResponse Income :=
  let page := query.page.getD 1
  let limit := query.limit.getD 1
  if !objectId userId then .error 500 "Server error"
  else
    .ok (paginate (groupedIncomes startOfDay endOfDay dateToString now incomes userId query.date)
      page limit)

/-- The number of documents over all groups of a list of groups. -/
def transactionCount {α : Type} (groups : List (Group α)) : Nat :=
  (groups.map (fun g => g.docs.length)).sum

/-! ## server.js: the trip channel -/

/-- A Trip document, with the fields selected by the join handler. -/
structure Trip where
  id : String
  userId : String
  participants : List String
  visibility : String
deriving DecidableEq, Repr

/-- A User document, with the fields selected by `populate`. -/
structure User where
  id : String
  fullName : String
  email : String
deriving DecidableEq, Repr

/-- A stored TripMessage document. -/
structure TripMessage where
  id : String
  trip : String
  user : String
  message : String
deriving DecidableEq, Repr

/-- The result of `msg.populate("user", "fullName email")`. -/
structure PopulatedMessage where
  msg : TripMessage
  author : Option User
deriving DecidableEq, Repr

/-- An event emitted by the server. -/
inductive ServerEvent where
  | error (message : String)
  | joined (tripId : String)
  | tripMessage (payload : PopulatedMessage)
deriving DecidableEq, Repr

/-- An authenticated connection: its socket id and `socket.user.id`. -/
structure Socket where
  id : Nat
  userId : String
deriving DecidableEq, Repr

/-- The state the socket handlers act on: three collections and the room registry, a
list of (room name, socket id) memberships. -/
structure Channel where
  trips : List Trip
  users : List User
  messages : List TripMessage
  rooms : List (String × Nat)
deriving DecidableEq, Repr

/-- The room name `trip:${tripId}`. -/
def tripRoom (tripId : String) : String := "trip:" ++ tripId

/-- The call `socket.join(room)`; a room is a set, a second join changes nothing. -/
def Channel.join (st : Channel) (room : String) (socket : Socket) : Channel :=
  if (room, socket.id) ∈ st.rooms then st
  else ⟨st.trips, st.users, st.messages, st.rooms ++ [(room, socket.id)]⟩

/-- The sockets that `io.to(room)` addresses. -/
def Channel.members (st : Channel) (room : String) : List Nat :=
  (st.rooms.filter (fun m => decide (m.1 = room))).map Prod.snd

/-- The handler of `join-trip`: the new state and the events delivered, each with the
socket id that receives it. `castObjectId` tells whether `findById` can cast the id. -/
def joinTrip (castObjectId : String → Bool) (st : Channel) (socket : Socket)
    (tripId : String) : Channel × List (Nat × ServerEvent) :=
  if !castObjectId tripId then (st, [(socket.id, .error "Server error")])
  else
    match st.trips.find? (fun t => decide (t.id = tripId)) with
    | none => (st, [(socket.id, .error "Trip not found")])
    | some trip =>
      let uid := socket.userId
      let isCreator := decide (trip.userId = uid)
      let isParticipant := decide (uid ∈ trip.participants)
      if (decide (trip.visibility = "private") && !isCreator)
          || (!isCreator && !isParticipant) then
        (st, [(socket.id, .error "Access denied")])
      else
        (st.join (tripRoom tripId) socket, [(socket.id, .joined tripId)])

/-- The handler of `trip-message`. `tripMessageModel` stands for the schema of
`models/TripMessage.js`: given trip, user and message it yields the created document,
or `none` when `create` throws. An absent `tripId` or `message` is `none`. -/
def tripMessage (tripMessageModel : String → String → String → Option TripMessage)
    (st : Channel) (socket : Socket) (tripId message : Option String) :
    Channel × List (Nat × ServerEvent) :=
  match tripId.filter (fun t => decide (t ≠ "")), message.filter (fun m => decide (m ≠ "")) with
  | some tripId, some message =>
    match tripMessageModel tripId socket.userId message with
    | none => (st, [(socket.id, .error "Message not sent")])
    | some msg =>
      let populated : PopulatedMessage :=
        ⟨msg, st.users.find? (fun u => decide (u.id = msg.user))⟩
      (⟨st.trips, st.users, st.messages ++ [msg], st.rooms⟩,
        (st.members (tripRoom tripId)).map (fun sid => (sid, .tripMessage populated)))
  | _, _ => (st, [])

/-! ## Sample data -/

/-- Income documents of two users; `u1` has six, two of them at the sixty-day boundary
of the clock reading 6000000000. -/
def sampleIncomes : List Income :=
  [⟨"i1", "u1", "cash", "salary", "pay", 200, 5999999000⟩,
   ⟨"i2", "u2", "cash", "gift", "other user", 70, 5999999000⟩,
   ⟨"i3", "u1", "cash", "bonus", "on the boundary", 30, 816000000⟩,
   ⟨"i4", "u1", "cash", "bonus", "before the boundary", 5, 815999999⟩,
   ⟨"i5", "u1", "cash", "refund", "", 11, 5000000000⟩,
   ⟨"i6", "u1", "cash", "refund", "", 12, 5000000001⟩,
   ⟨"i7", "u1", "cash", "refund", "", 13, 5000000002⟩]

/-- Expense documents of two users around the thirty-day boundary of the clock reading
6000000000. -/
def sampleExpenses : List Expense :=
  [⟨"e1", "u1", none, "meal", "food", "lunch", 50, 5999999000⟩,
   ⟨"e2", "u1", some "t1", "bus", "travel", "on the boundary", 20, 3408000000⟩,
   ⟨"e3", "u1", none, "bus", "travel", "before the boundary", 7, 3407999999⟩,
   ⟨"e4", "u2", none, "meal", "food", "other user", 9, 5999999000⟩]

/-- Midnight of the day of a time value, for a server in UTC. -/
def utcStartOfDay (t : Int) : Int := t - t % 86400000

/-- The last millisecond of the day of a time value, for a server in UTC. -/
def utcEndOfDay (t : Int) : Int := t - t % 86400000 + 86399999

/-- The `%Y-%m-%d` key of a time value within the first two days of 1970. -/
def sampleDateToString (t : Int) : String :=
  if t < 86400000 then "1970-01-01" else "1970-01-02"

/-- Two expenses of `u1` on two different days and one of `u2`. -/
def twoDayExpenses : List Expense :=
  [⟨"e1", "u1", none, "meal", "food", "lunch", 50, 3600000⟩,
   ⟨"e2", "u1", none, "bus", "travel", "ticket", 20, 90000000⟩,
   ⟨"e3", "u2", none, "meal", "food", "other user", 9, 3600000⟩]

/-- One income of `u1`, dated on the first day of 1970. -/
def oneIncome : List Income :=
  [⟨"i1", "u1", "cash", "salary", "pay", 200, 3600000⟩]

/-- A channel with one private trip of `alice`, joined by her socket 1. -/
def sampleChannel : Channel :=
  ⟨[⟨"t1", "alice", ["bob"], "private"⟩, ⟨"t2", "alice", ["bob"], "shared"⟩],
    [⟨"alice", "Alice", "alice@example.org"⟩, ⟨"mallory", "Mallory", "mallory@example.org"⟩],
    [], [("trip:t1", 1)]⟩

/-- A channel in which socket 5 of `bob` sits in the room of trip `t1` from an earlier
join, and `t1` has since been made private by its creator `alice`. -/
def staleChannel : Channel :=
  ⟨[⟨"t1", "alice", ["bob"], "private"⟩],
    [⟨"alice", "Alice", "alice@example.org"⟩, ⟨"bob", "Bob", "bob@example.org"⟩],
    [], [("trip:t1", 1), ("trip:t1", 5)]⟩

/-! ## Lemmas on sums and sorting -/

theorem foldl_add_eq_sum {α : Type} (f : α → Int) (xs : List α) (acc : Int) :
    xs.foldl (fun sum txn => sum + f txn) acc = acc + (xs.map f).sum := by
  induction xs generalizing acc with
  | nil => simp
  | cons x xs ih => simp [ih, add_assoc]

theorem reduceAmount_eq_sum {α : Type} (f : α → Int) (xs : List α) :
    reduceAmount f xs = (xs.map f).sum := by
  simp [reduceAmount, foldl_add_eq_sum]

theorem totalOrZero_aggregateTotal {α : Type} (userId : α → String) (amount : α → Int)
    (coll : List α) (uid : String) :
    totalOrZero (aggregateTotal userId amount coll uid)
      = ((coll.filter (fun r => userId r = uid)).map amount).sum := by
  unfold aggregateTotal
  cases h : coll.filter (fun r => userId r = uid) with
  | nil => simp [totalOrZero]
  | cons r rs =>
    simp only [totalOrZero, List.head?_cons]
    split_ifs with h0
    · exact h0.symm
    · rfl

theorem sortByDateDesc_perm {α : Type} (date : α → Int) (xs : List α) :
    (sortByDateDesc date xs).Perm xs :=
  List.perm_insertionSort _ xs

theorem sortByDateDesc_sorted {α : Type} (date : α → Int) (xs : List α) :
    (sortByDateDesc date xs).Sorted (DateDesc date) :=
  List.sorted_insertionSort _ xs

/-! ## The dashboard -/

theorem getDashboardData_of_valid (isValidObjectId : String → Bool) (now60 now30 : Int)
    (incomes : List Income) (expenses : List Expense) (userId : String)
    (hvalid : isValidObjectId userId = true) :
    getDashboardData isValidObjectId now60 now30 incomes expenses userId
      = .ok ⟨totalOrZero (aggregateTotal Income.userId Income.amount incomes userId)
              - totalOrZero (aggregateTotal Expense.userId Expense.amount expenses userId),
            totalOrZero (aggregateTotal Income.userId Income.amount incomes userId),
            totalOrZero (aggregateTotal Expense.userId Expense.amount expenses userId),
            ⟨reduceAmount Expense.amount
                (findSince Expense.userId Expense.date expenses userId (now30 - ms30Days)),
              (findSince Expense.userId Expense.date expenses userId (now30 - ms30Days)).map
                (fun txn => ⟨txn, "expense"⟩)⟩,
            ⟨reduceAmount Income.amount
                (findSince Income.userId Income.date incomes userId (now60 - ms60Days)),
              findSince Income.userId Income.date incomes userId (now60 - ms60Days)⟩,
            sortByDateDesc (fun t : Tagged Transaction => t.doc.date)
              ((findRecent Income.userId Income.date incomes userId).map
                  (fun txn => ⟨Transaction.income txn, "income"⟩)
                ++ (findRecent Expense.userId Expense.date expenses userId).map
                  (fun txn => ⟨Transaction.expense txn, "expense"⟩))⟩ := by
  simp only [getDashboardData, hvalid, Bool.not_true, Bool.false_eq_true, if_false]

/-- C2: for a valid user id the dashboard answers with `totalIncome` the sum of `amount`
over the user's Income documents, `totalExpense` the sum over the user's Expense
documents (documents of other users are filtered out, and each total is 0 when the user
has no document), and `totalBalance = totalIncome - totalExpense`. -/
theorem getDashboardData_totals (isValidObjectId : String → Bool) (now60 now30 : Int)
    (incomes : List Income) (expenses : List Expense) (userId : String)
    (hvalid : isValidObjectId userId = true) :
    ∃ body, getDashboardData isValidObjectId now60 now30 incomes expenses userId = .ok body
      ∧ body.totalIncome
          = ((incomes.filter (fun r => r.userId = userId)).map Income.amount).sum
      ∧ body.totalExpense
          = ((expenses.filter (fun r => r.userId = userId)).map Expense.amount).sum
      ∧ body.totalBalance = body.totalIncome - body.totalExpense
      ∧ ((∀ r ∈ incomes, r.userId ≠ userId) → body.totalIncome = 0)
      ∧ ((∀ r ∈ expenses, r.userId ≠ userId) → body.totalExpense = 0) := by
  refine ⟨_, getDashboardData_of_valid _ _ _ _ _ _ hvalid, ?_, ?_, rfl, ?_, ?_⟩
  · exact totalOrZero_aggregateTotal _ _ _ _
  · exact totalOrZero_aggregateTotal _ _ _ _
  · intro h
    have : incomes.filter (fun r => r.userId = userId) = [] := by
      simpa [List.filter_eq_nil_iff] using h
    show totalOrZero _ = 0
    rw [totalOrZero_aggregateTotal]
    simp [this]
  · intro h
    have : expenses.filter (fun r => r.userId = userId) = [] := by
      simpa [List.filter_eq_nil_iff] using h
    show totalOrZero _ = 0
    rw [totalOrZero_aggregateTotal]
    simp [this]

/-- The example of C2: one Expense of 50 and one Income of 200, next to documents of
another user, give `totalIncome` 200, `totalExpense` 50 and `totalBalance` 150. -/
theorem getDashboardData_totals_witness :
    (fun _ : String => true) "u1" = true ∧
    ∃ body, getDashboardData (fun _ => true) 1000 1000
        [⟨"i1", "u1", "cash", "salary", "pay", 200, 900⟩,
         ⟨"i2", "u2", "cash", "gift", "other user", 70, 900⟩]
        [⟨"e1", "u1", none, "meal", "food", "lunch", 50, 900⟩] "u1" = .ok body
      ∧ body.totalIncome = 200 ∧ body.totalExpense = 50 ∧ body.totalBalance = 150 := by
  refine ⟨rfl, ?_⟩
  obtain ⟨body, hb, hi, he, hbal, -, -⟩ := getDashboardData_totals (fun _ => true) 1000 1000
    [⟨"i1", "u1", "cash", "salary", "pay", 200, 900⟩,
     ⟨"i2", "u2", "cash", "gift", "other user", 70, 900⟩]
    [⟨"e1", "u1", none, "meal", "food", "lunch", 50, 900⟩] "u1" rfl
  refine ⟨body, hb, ?_, ?_, ?_⟩
  · rw [hi]; decide
  · rw [he]; decide
  · rw [hbal, hi, he]; decide

theorem findSince_perm {α : Type} (userId : α → String) (date : α → Int) (coll : List α)
    (uid : String) (cutoff : Int) :
    (findSince userId date coll uid cutoff).Perm
      (coll.filter (fun r => userId r = uid ∧ cutoff ≤ date r)) :=
  sortByDateDesc_perm _ _

theorem findSince_sorted {α : Type} (userId : α → String) (date : α → Int) (coll : List α)
    (uid : String) (cutoff : Int) :
    (findSince userId date coll uid cutoff).Sorted (fun a b => date b ≤ date a) :=
  sortByDateDesc_sorted _ _

/-- C10: for a valid user id and the clock readings `now30`, `now60` of the two window
queries, `last30DaysExpenses.transactions` is the list of the user's Expense documents
with `date >= now30 - 30 days` (boundary included), rearranged into non-increasing date
order, each wrapped with `type = "expense"` and otherwise unchanged, and its `total` is
the sum of their amounts; `last60DaysIncome.transactions` is the list of the user's
Income documents with `date >= now60 - 60 days` in non-increasing date order, and its
`total` is the sum of their amounts. -/
theorem getDashboardData_windows (isValidObjectId : String → Bool) (now60 now30 : Int)
    (incomes : List Income) (expenses : List Expense) (userId : String)
    (hvalid : isValidObjectId userId = true) :
    ∃ body, getDashboardData isValidObjectId now60 now30 incomes expenses userId = .ok body
      ∧ (∃ txns : List Expense,
          txns.Perm (expenses.filter
            (fun r => r.userId = userId ∧ now30 - 2592000000 ≤ r.date))
          ∧ txns.Sorted (fun a b => b.date ≤ a.date)
          ∧ body.last30DaysExpenses.transactions
              = txns.map (fun r => (⟨r, "expense"⟩ : Tagged Expense)))
      ∧ body.last30DaysExpenses.total
          = ((expenses.filter
              (fun r => r.userId = userId ∧ now30 - 2592000000 ≤ r.date)).map
                Expense.amount).sum
      ∧ body.last60DaysIncome.transactions.Perm (incomes.filter
          (fun r => r.userId = userId ∧ now60 - 5184000000 ≤ r.date))
      ∧ body.last60DaysIncome.transactions.Sorted (fun a b => b.date ≤ a.date)
      ∧ body.last60DaysIncome.total
          = ((incomes.filter
              (fun r => r.userId = userId ∧ now60 - 5184000000 ≤ r.date)).map
                Income.amount).sum := by
  have h30 : ms30Days = 2592000000 := by norm_num [ms30Days]
  have h60 : ms60Days = 5184000000 := by norm_num [ms60Days]
  refine ⟨_, getDashboardData_of_valid _ _ _ _ _ _ hvalid, ?_, ?_, ?_, ?_, ?_⟩
  · refine ⟨findSince Expense.userId Expense.date expenses userId (now30 - ms30Days),
      ?_, findSince_sorted _ _ _ _ _, rfl⟩
    rw [← h30]
    exact findSince_perm _ _ _ _ _
  · show reduceAmount _ _ = _
    rw [reduceAmount_eq_sum, ← h30]
    exact ((findSince_perm Expense.userId Expense.date expenses userId _).map _).sum_eq
  · show (findSince _ _ _ _ _).Perm _
    rw [← h60]
    exact findSince_perm _ _ _ _ _
  · exact findSince_sorted _ _ _ _ _
  · show reduceAmount _ _ = _
    rw [reduceAmount_eq_sum, ← h60]
    exact ((findSince_perm Income.userId Income.date incomes userId _).map _).sum_eq

/-- The windows of C10 on the sample data at the clock reading 6000000000: the expense
on the thirty-day boundary counts and the one a millisecond older does not, and
likewise for the incomes at sixty days. -/
theorem getDashboardData_windows_witness :
    (fun _ : String => true) "u1" = true ∧
    ∃ body, getDashboardData (fun _ => true) 6000000000 6000000000
        sampleIncomes sampleExpenses "u1" = .ok body
      ∧ body.last30DaysExpenses.total = 70 ∧ body.last60DaysIncome.total = 266
      ∧ body.last30DaysExpenses.transactions.length = 2 := by
  refine ⟨rfl, ?_⟩
  obtain ⟨body, hb, ⟨txns, hperm, -, htx⟩, he, -, -, hi⟩ :=
    getDashboardData_windows (fun _ => true) 6000000000 6000000000
      sampleIncomes sampleExpenses "u1" rfl
  refine ⟨body, hb, ?_, ?_, ?_⟩
  · rw [he]; decide
  · rw [hi]; decide
  · rw [htx, List.length_map, hperm.length_eq]; decide

theorem findRecent_length {α : Type} (userId : α → String) (date : α → Int) (coll : List α)
    (uid : String) :
    (findRecent userId date coll uid).length
      = min 5 (coll.filter (fun r => userId r = uid)).length := by
  simp [findRecent, (sortByDateDesc_perm date _).length_eq]

theorem findRecent_nodup {α : Type} (userId : α → String) (date : α → Int) (coll : List α)
    (uid : String) (h : coll.Nodup) : (findRecent userId date coll uid).Nodup :=
  (((sortByDateDesc_perm date _).nodup_iff).mpr (h.filter _)).sublist (List.take_sublist _ _)

theorem findRecent_split {α : Type} (userId : α → String) (date : α → Int) (coll : List α)
    (uid : String) :
    ∃ rest : List α,
      (findRecent userId date coll uid ++ rest).Perm (coll.filter (fun r => userId r = uid))
      ∧ ∀ a ∈ findRecent userId date coll uid, ∀ b ∈ rest, date b ≤ date a := by
  refine ⟨(sortByDateDesc date (coll.filter (fun r => userId r = uid))).drop 5, ?_, ?_⟩
  · unfold findRecent
    rw [List.take_append_drop]
    exact sortByDateDesc_perm _ _
  · intro a ha b hb
    exact (sortByDateDesc_sorted date _).rel_of_mem_take_of_mem_drop ha hb

/-- C9: for a valid user id, `recentTransactions` is a rearrangement of `top5Income`
wrapped with `type = "income"` together with `top5Expense` wrapped with
`type = "expense"`, where `top5Income` holds `min 5 n` of the user's `n` Income
documents and every one of them is dated no earlier than every Income document of the
user left out (and likewise `top5Expense`); its dates are non-increasing from first to
last, its length is `min 5 #incomes + min 5 #expenses`, at most 10, and when document
ids are unique within each collection no entry appears twice. -/
theorem getDashboardData_recent (isValidObjectId : String → Bool) (now60 now30 : Int)
    (incomes : List Income) (expenses : List Expense) (userId : String)
    (hvalid : isValidObjectId userId = true)
    (hincomes : (incomes.map Income.id).Nodup) (hexpenses : (expenses.map Expense.id).Nodup) :
    ∃ body, getDashboardData isValidObjectId now60 now30 incomes expenses userId = .ok body
      ∧ (∃ (top5Income restIncome : List Income) (top5Expense restExpense : List Expense),
          (top5Income ++ restIncome).Perm (incomes.filter (fun r => r.userId = userId))
          ∧ top5Income.length = min 5 (incomes.filter (fun r => r.userId = userId)).length
          ∧ (∀ a ∈ top5Income, ∀ b ∈ restIncome, b.date ≤ a.date)
          ∧ (top5Expense ++ restExpense).Perm (expenses.filter (fun r => r.userId = userId))
          ∧ top5Expense.length = min 5 (expenses.filter (fun r => r.userId = userId)).length
          ∧ (∀ a ∈ top5Expense, ∀ b ∈ restExpense, b.date ≤ a.date)
          ∧ body.recentTransactions.Perm
              (top5Income.map (fun r => (⟨Transaction.income r, "income"⟩ : Tagged Transaction))
                ++ top5Expense.map
                  (fun r => (⟨Transaction.expense r, "expense"⟩ : Tagged Transaction))))
      ∧ body.recentTransactions.Sorted (fun a b => b.doc.date ≤ a.doc.date)
      ∧ body.recentTransactions.length
          = min 5 (incomes.filter (fun r => r.userId = userId)).length
            + min 5 (expenses.filter (fun r => r.userId = userId)).length
      ∧ body.recentTransactions.length ≤ 10
      ∧ body.recentTransactions.Nodup := by
  obtain ⟨restI, hpI, hrI⟩ := findRecent_split Income.userId Income.date incomes userId
  obtain ⟨restE, hpE, hrE⟩ := findRecent_split Expense.userId Expense.date expenses userId
  have hlen : (sortByDateDesc (fun t : Tagged Transaction => t.doc.date)
      ((findRecent Income.userId Income.date incomes userId).map
          (fun txn => (⟨Transaction.income txn, "income"⟩ : Tagged Transaction))
        ++ (findRecent Expense.userId Expense.date expenses userId).map
          (fun txn => (⟨Transaction.expense txn, "expense"⟩ : Tagged Transaction)))).length
      = min 5 (incomes.filter (fun r => r.userId = userId)).length
        + min 5 (expenses.filter (fun r => r.userId = userId)).length := by
    rw [(sortByDateDesc_perm _ _).length_eq, List.length_append, List.length_map,
      List.length_map, findRecent_length, findRecent_length]
  refine ⟨_, getDashboardData_of_valid _ _ _ _ _ _ hvalid,
    ⟨_, restI, _, restE, hpI, findRecent_length _ _ _ _, hrI, hpE, findRecent_length _ _ _ _,
      hrE, sortByDateDesc_perm _ _⟩,
    sortByDateDesc_sorted _ _, hlen, ?_, ?_⟩
  · show (sortByDateDesc _ _).length ≤ 10
    rw [hlen]
    omega
  · show (sortByDateDesc _ _).Nodup
    rw [(sortByDateDesc_perm _ _).nodup_iff, List.nodup_append]
    refine ⟨?_, ?_, ?_⟩
    · refine (findRecent_nodup _ _ _ _ (List.Nodup.of_map _ hincomes)).map ?_
      intro a b hab
      simpa using hab
    · refine (findRecent_nodup _ _ _ _ (List.Nodup.of_map _ hexpenses)).map ?_
      intro a b hab
      simpa using hab
    · intro t ht1 ht2
      simp only [List.mem_map] at ht1 ht2
      obtain ⟨a, -, rfl⟩ := ht1
      obtain ⟨b, -, hb⟩ := ht2
      simp at hb

/-- The recent list of C9 on the sample data: five of the six incomes of `u1` and all
three expenses, newest first. -/
theorem getDashboardData_recent_witness :
    (fun _ : String => true) "u1" = true
    ∧ (sampleIncomes.map Income.id).Nodup ∧ (sampleExpenses.map Expense.id).Nodup
    ∧ ∃ body, getDashboardData (fun _ => true) 6000000000 6000000000
        sampleIncomes sampleExpenses "u1" = .ok body
      ∧ body.recentTransactions.length = 8 ∧ body.recentTransactions.Nodup := by
  refine ⟨rfl, by decide, by decide, ?_⟩
  obtain ⟨body, hb, -, -, hlen, -, hnd⟩ :=
    getDashboardData_recent (fun _ => true) 6000000000 6000000000
      sampleIncomes sampleExpenses "u1" rfl (by decide) (by decide)
  refine ⟨body, hb, ?_, hnd⟩
  rw [hlen]; decide

/-! ## Adding a record -/

/-- C4: when the `amount` of the body is a number `n <= 0` (zero included), `addIncome`
and `addExpense` answer with status 400 and no data, and the collection they return is
the one they were given, whatever the other fields and the schema are. -/
theorem add_rejects_nonpositive_amount (strToNumber dateParse : String → Option Int)
    (incomeModel : IncomeInput → Option Income) (expenseModel : ExpenseInput → Option Expense)
    (incomes : List Income) (expenses : List Expense) (userId : String) (body : RequestBody)
    (n : Int) (hamount : body.amount = .number n) (hn : n ≤ 0) :
    (addIncome strToNumber dateParse incomeModel incomes userId body).1.status = 400
      ∧ (addIncome strToNumber dateParse incomeModel incomes userId body).1.data = none
      ∧ (addIncome strToNumber dateParse incomeModel incomes userId body).2 = incomes
      ∧ (addExpense strToNumber expenseModel expenses userId body).1.status = 400
      ∧ (addExpense strToNumber expenseModel expenses userId body).1.data = none
      ∧ (addExpense strToNumber expenseModel expenses userId body).2 = expenses := by
  have hle : body.amount.leZero strToNumber = true := by
    simp [hamount, JsValue.leZero, JsValue.toNumber, hn]
  unfold addIncome addExpense
  simp only [hle, if_true]
  refine ⟨?_, ?_, ?_, ?_, ?_, ?_⟩ <;> split_ifs <;> rfl

/-- The rejection of C4 at the amounts 0 and -5, with every other field filled in and
schemas that would accept the record. -/
theorem add_rejects_nonpositive_amount_witness :
    (JsValue.number (-5) = .number (-5)) ∧ ((-5 : Int) ≤ 0)
    ∧ (addIncome (fun _ => none) (fun _ => some 0)
          (fun i => some ⟨"new", i.userId, "", "", "", 0, i.date⟩) sampleIncomes "u1"
          ⟨.string "cash", .string "salary", .string "food", .number (-5),
            .string "2024-01-01", .string "pay"⟩).1.status = 400
    ∧ (addExpense (fun _ => none)
          (fun i => some ⟨"new", i.userId, none, "", "", "", 0, 0⟩) sampleExpenses "u1"
          ⟨.string "cash", .string "salary", .string "food", .number (-5),
            .string "2024-01-01", .string "pay"⟩).2 = sampleExpenses :=
  ⟨rfl, by decide,
    (add_rejects_nonpositive_amount (fun _ => none) (fun _ => some 0)
      (fun i => some ⟨"new", i.userId, "", "", "", 0, i.date⟩)
      (fun i => some ⟨"new", i.userId, none, "", "", "", 0, 0⟩) sampleIncomes sampleExpenses "u1"
      ⟨.string "cash", .string "salary", .string "food", .number (-5),
        .string "2024-01-01", .string "pay"⟩ (-5) rfl (by decide)).1,
    (add_rejects_nonpositive_amount (fun _ => none) (fun _ => some 0)
      (fun i => some ⟨"new", i.userId, "", "", "", 0, i.date⟩)
      (fun i => some ⟨"new", i.userId, none, "", "", "", 0, 0⟩) sampleIncomes sampleExpenses "u1"
      ⟨.string "cash", .string "salary", .string "food", .number (-5),
        .string "2024-01-01", .string "pay"⟩ (-5) rfl (by decide)).2.2.2.2.2⟩

/-- C5 fails as stated. A body with icon, source, description and the positive amount
200 but no date gets 400 from `addIncome`; a body with an unparseable date gets 201 from
`addExpense` when the schema accepts the record; a body with neither icon nor
description gets 201 from `addIncome` when the schema accepts the record. -/
theorem add_date_optional_counterexample :
    (addIncome (fun _ => none) (fun _ => none)
        (fun i => some ⟨"i9", i.userId, "cash", "salary", "pay", 200, i.date⟩) [] "u1"
        ⟨.string "cash", .string "salary", .undefined, .number 200, .undefined,
          .string "pay"⟩).1.status = 400
    ∧ (addExpense (fun _ => none)
        (fun i => some ⟨"e9", i.userId, none, "meal", "food", "lunch", 50, 0⟩) [] "u1"
        ⟨.string "meal", .undefined, .string "food", .number 50, .string "not a date",
          .string "lunch"⟩).1.status = 201
    ∧ (addIncome (fun _ => none)
        (fun s => if s = "2024-01-01" then some 1704067200000 else none)
        (fun i => some ⟨"i9", i.userId, "", "salary", "", 200, i.date⟩) [] "u1"
        ⟨.undefined, .string "salary", .undefined, .number 200, .string "2024-01-01",
          .undefined⟩).1.status = 201 := by
  decide

/-- C5, amended: `addIncome` answers 400 exactly when `source`, `amount` or `date` is
missing (falsy), the amount is `<= 0`, or the date is not a valid date; `icon` and
`description` are not checked. `addExpense` answers 400 exactly when `icon`,
`description`, `category` or `amount` is missing (falsy) or the amount is `<= 0`; it
does not read `date`. A body that is not answered 400 is handed to the schema with the
fields as given: when the save succeeds the answer is 201 with the created record, which
is appended to the collection, and when it throws the answer is 500 and the collection
is unchanged. -/
theorem add_status (strToNumber dateParse : String → Option Int)
    (incomeModel : IncomeInput → Option Income) (expenseModel : ExpenseInput → Option Expense)
    (incomes : List Income) (expenses : List Expense) (userId : String) (body : RequestBody) :
    ((addIncome strToNumber dateParse incomeModel incomes userId body).1.status = 400
        ↔ (body.source.truthy = false ∨ body.amount.truthy = false ∨ body.date.truthy = false
            ∨ body.amount.leZero strToNumber = true ∨ newDate dateParse body.date = none))
    ∧ ((addIncome strToNumber dateParse incomeModel incomes userId body).1.status ≠ 400 →
        ∃ parsedDate, newDate dateParse body.date = some parsedDate
          ∧ ((∃ doc, incomeModel ⟨userId, body.icon, body.source, body.description,
                  body.amount, parsedDate⟩ = some doc
                ∧ addIncome strToNumber dateParse incomeModel incomes userId body
                    = (⟨201, true, "Income added successfully", some doc⟩, incomes ++ [doc]))
            ∨ (incomeModel ⟨userId, body.icon, body.source, body.description,
                  body.amount, parsedDate⟩ = none
                ∧ addIncome strToNumber dateParse incomeModel incomes userId body
                    = (⟨500, false, "Server error", none⟩, incomes))))
    ∧ ((addExpense strToNumber expenseModel expenses userId body).1.status = 400
        ↔ (body.icon.truthy = false ∨ body.description.truthy = false
            ∨ body.category.truthy = false ∨ body.amount.truthy = false
            ∨ body.amount.leZero strToNumber = true))
    ∧ ((addExpense strToNumber expenseModel expenses userId body).1.status ≠ 400 →
        (∃ doc, expenseModel ⟨userId, body.icon, body.description, body.category,
              body.amount⟩ = some doc
            ∧ addExpense strToNumber expenseModel expenses userId body
                = (⟨201, true, "Expense added successfully", some doc⟩, expenses ++ [doc]))
        ∨ (expenseModel ⟨userId, body.icon, body.description, body.category,
              body.amount⟩ = none
            ∧ addExpense strToNumber expenseModel expenses userId body
                = (⟨500, false, "Server error", none⟩, expenses))) := by
  refine ⟨?_, ?_, ?_, ?_⟩
  · unfold addIncome
    cases body.source.truthy <;> cases body.amount.truthy <;> cases body.date.truthy <;>
      cases body.amount.leZero strToNumber <;> cases h : newDate dateParse body.date <;>
      simp
    cases incomeModel ⟨userId, body.icon, body.source, body.description, body.amount, _⟩ <;>
      simp
  · unfold addIncome
    cases body.source.truthy <;> cases body.amount.truthy <;> cases body.date.truthy <;>
      cases body.amount.leZero strToNumber <;> cases h : newDate dateParse body.date <;>
      simp
    cases incomeModel ⟨userId, body.icon, body.source, body.description, body.amount, _⟩ <;>
      simp
  · unfold addExpense
    cases body.icon.truthy <;> cases body.description.truthy <;>
      cases body.category.truthy <;> cases body.amount.truthy <;>
      cases body.amount.leZero strToNumber <;> simp
    cases expenseModel ⟨userId, body.icon, body.description, body.category, body.amount⟩ <;>
      simp
  · unfold addExpense
    cases body.icon.truthy <;> cases body.description.truthy <;>
      cases body.category.truthy <;> cases body.amount.truthy <;>
      cases body.amount.leZero strToNumber <;> simp
    cases expenseModel ⟨userId, body.icon, body.description, body.category, body.amount⟩ <;>
      simp

/-- The amended C5 at a complete income body: it is not answered 400, and the record the
schema returns is the one stored. -/
theorem add_status_witness :
    (addIncome (fun _ => none) (fun s => if s = "2024-01-01" then some 1704067200000 else none)
        (fun i => some ⟨"i9", i.userId, "cash", "salary", "pay", 200, i.date⟩) [] "u1"
        ⟨.string "cash", .string "salary", .undefined, .number 200, .string "2024-01-01",
          .string "pay"⟩).1.status ≠ 400
    ∧ (addIncome (fun _ => none) (fun s => if s = "2024-01-01" then some 1704067200000 else none)
        (fun i => some ⟨"i9", i.userId, "cash", "salary", "pay", 200, i.date⟩) [] "u1"
        ⟨.string "cash", .string "salary", .undefined, .number 200, .string "2024-01-01",
          .string "pay"⟩).2 = [⟨"i9", "u1", "cash", "salary", "pay", 200, 1704067200000⟩] := by
  refine ⟨by decide, ?_⟩
  obtain ⟨d, hd, h | h⟩ := (add_status (fun _ => none)
    (fun s => if s = "2024-01-01" then some 1704067200000 else none)
    (fun i => some ⟨"i9", i.userId, "cash", "salary", "pay", 200, i.date⟩)
    (fun _ => none) [] [] "u1"
    ⟨.string "cash", .string "salary", .undefined, .number 200, .string "2024-01-01",
      .string "pay"⟩).2.1 (by decide)
  · obtain ⟨doc, hdoc, heq⟩ := h
    have hd' : d = 1704067200000 := by
      have : newDate (fun s => if s = "2024-01-01" then some 1704067200000 else none)
          (.string "2024-01-01") = some 1704067200000 := by decide
      rw [this] at hd
      exact (Option.some.inj hd).symm
    subst hd'
    rw [heq]
    simp only [Option.some.injEq] at hdoc
    simp [← hdoc]
  · exact absurd h.1 (by simp)

/-! ## Deleting a record -/

theorem find?_some_eraseP {α : Type} (p : α → Bool) (coll : List α) (r : α)
    (h : coll.find? p = some r) :
    r ∈ coll ∧ p r = true ∧ coll.Perm (r :: coll.eraseP p)
      ∧ (coll.eraseP p).length + 1 = coll.length := by
  obtain ⟨hp, as, bs, rfl, has⟩ := List.find?_eq_some.mp h
  have hnot : ∀ a ∈ as, ¬ p a = true := by
    intro a ha
    simpa using has a ha
  have herase : (as ++ r :: bs).eraseP p = as ++ bs := by
    rw [List.eraseP_append_right _ hnot, List.eraseP_cons_of_pos hp]
  refine ⟨by simp, hp, ?_, ?_⟩
  · rw [herase]
    exact List.perm_middle
  · rw [herase]
    simp
    omega

theorem nodup_of_perm_cons_not_mem {α : Type} {r : α} {coll rest : List α}
    (hnodup : coll.Nodup) (hperm : coll.Perm (r :: rest)) : r ∉ rest :=
  (List.nodup_cons.mp (hperm.nodup_iff.mp hnodup)).1

/-- C6: with castable ids and unique document ids, `deleteExpense` and `deleteIncome`
answer 404 and return the collection unchanged when a record with the given id exists
but belongs to another user; status 200 is answered exactly when a record matches both
the id and the caller's user id, and then the collection returned is the old one with
that one record taken out (every other record stays, in order); with any other status
the collection is unchanged. -/
theorem delete_only_own_record (castObjectId : String → Bool)
    (expenses : List Expense) (incomes : List Income) (userId id : String)
    (hid : castObjectId id = true) (huser : castObjectId userId = true)
    (hexpenses : (expenses.map Expense.id).Nodup) (hincomes : (incomes.map Income.id).Nodup) :
    ((∃ r ∈ expenses, r.id = id ∧ r.userId ≠ userId) →
        (deleteExpense castObjectId expenses userId id).1.status = 404
          ∧ (deleteExpense castObjectId expenses userId id).2 = expenses)
    ∧ ((deleteExpense castObjectId expenses userId id).1.status = 200
        ↔ ∃ r ∈ expenses, r.id = id ∧ r.userId = userId)
    ∧ ((deleteExpense castObjectId expenses userId id).1.status = 200 →
        ∃ r ∈ expenses, r.id = id ∧ r.userId = userId
          ∧ expenses.Perm (r :: (deleteExpense castObjectId expenses userId id).2)
          ∧ r ∉ (deleteExpense castObjectId expenses userId id).2
          ∧ (deleteExpense castObjectId expenses userId id).2.Sublist expenses
          ∧ (deleteExpense castObjectId expenses userId id).2.length + 1 = expenses.length)
    ∧ ((deleteExpense castObjectId expenses userId id).1.status ≠ 200 →
        (deleteExpense castObjectId expenses userId id).2 = expenses)
    ∧ ((∃ r ∈ incomes, r.id = id ∧ r.userId ≠ userId) →
        (deleteIncome castObjectId incomes userId id).1.status = 404
          ∧ (deleteIncome castObjectId incomes userId id).2 = incomes)
    ∧ ((deleteIncome castObjectId incomes userId id).1.status = 200
        ↔ ∃ r ∈ incomes, r.id = id ∧ r.userId = userId)
    ∧ ((deleteIncome castObjectId incomes userId id).1.status = 200 →
        ∃ r ∈ incomes, r.id = id ∧ r.userId = userId
          ∧ incomes.Perm (r :: (deleteIncome castObjectId incomes userId id).2)
          ∧ r ∉ (deleteIncome castObjectId incomes userId id).2
          ∧ (deleteIncome castObjectId incomes userId id).2.Sublist incomes
          ∧ (deleteIncome castObjectId incomes userId id).2.length + 1 = incomes.length)
    ∧ ((deleteIncome castObjectId incomes userId id).1.status ≠ 200 →
        (deleteIncome castObjectId incomes userId id).2 = incomes) := by
  have hE : expenses.Nodup := List.Nodup.of_map _ hexpenses
  have hI : incomes.Nodup := List.Nodup.of_map _ hincomes
  have hEid : ∀ a ∈ expenses, ∀ b ∈ expenses, a.id = b.id → a = b :=
    fun a ha b hb h => List.inj_on_of_nodup_map hexpenses ha hb h
  have hIid : ∀ a ∈ incomes, ∀ b ∈ incomes, a.id = b.id → a = b :=
    fun a ha b hb h => List.inj_on_of_nodup_map hincomes ha hb h
  unfold deleteExpense deleteIncome findOneAndDelete
  simp only [hid, huser, Bool.not_true, Bool.or_self, Bool.false_eq_true, if_false]
  refine ⟨?_, ?_, ?_, ?_, ?_, ?_, ?_, ?_⟩
  · rintro ⟨r, hr, hrid, hruser⟩
    have hnone : expenses.find? (fun r : Expense => decide (r.id = id ∧ r.userId = userId))
        = none := by
      rw [List.find?_eq_none]
      intro x hx hpx
      simp only [decide_eq_true_eq] at hpx
      have : x = r := hEid x hx r hr (hpx.1.trans hrid.symm)
      exact hruser (this ▸ hpx.2)
    rw [hnone]
    exact ⟨rfl, rfl⟩
  · cases h : expenses.find? (fun r : Expense => decide (r.id = id ∧ r.userId = userId)) with
    | none =>
      constructor
      · intro h404
        have h' : (404 : Nat) = 200 := h404
        exact absurd h' (by decide)
      · rintro ⟨r, hr, hrid, hruser⟩
        exact absurd (by simp [hrid, hruser]) ((List.find?_eq_none.mp h) r hr)
    | some r =>
      refine ⟨fun _ => ?_, fun _ => rfl⟩
      obtain ⟨hmem, hp, -, -⟩ := find?_some_eraseP _ _ _ h
      exact ⟨r, hmem, by simpa using hp⟩
  · cases h : expenses.find? (fun r : Expense => decide (r.id = id ∧ r.userId = userId)) with
    | none => simp
    | some r =>
      intro _
      obtain ⟨hmem, hp, hperm, hlen⟩ := find?_some_eraseP _ _ _ h
      simp only [decide_eq_true_eq] at hp
      exact ⟨r, hmem, hp.1, hp.2, hperm, nodup_of_perm_cons_not_mem hE hperm,
        List.eraseP_sublist _, hlen⟩
  · cases h : expenses.find? (fun r : Expense => decide (r.id = id ∧ r.userId = userId)) with
    | none => simp
    | some r => simp
  · rintro ⟨r, hr, hrid, hruser⟩
    have hnone : incomes.find? (fun r : Income => decide (r.id = id ∧ r.userId = userId))
        = none := by
      rw [List.find?_eq_none]
      intro x hx hpx
      simp only [decide_eq_true_eq] at hpx
      have : x = r := hIid x hx r hr (hpx.1.trans hrid.symm)
      exact hruser (this ▸ hpx.2)
    rw [hnone]
    exact ⟨rfl, rfl⟩
  · cases h : incomes.find? (fun r : Income => decide (r.id = id ∧ r.userId = userId)) with
    | none =>
      constructor
      · intro h404
        have h' : (404 : Nat) = 200 := h404
        exact absurd h' (by decide)
      · rintro ⟨r, hr, hrid, hruser⟩
        exact absurd (by simp [hrid, hruser]) ((List.find?_eq_none.mp h) r hr)
    | some r =>
      refine ⟨fun _ => ?_, fun _ => rfl⟩
      obtain ⟨hmem, hp, -, -⟩ := find?_some_eraseP _ _ _ h
      exact ⟨r, hmem, by simpa using hp⟩
  · cases h : incomes.find? (fun r : Income => decide (r.id = id ∧ r.userId = userId)) with
    | none => simp
    | some r =>
      intro _
      obtain ⟨hmem, hp, hperm, hlen⟩ := find?_some_eraseP _ _ _ h
      simp only [decide_eq_true_eq] at hp
      exact ⟨r, hmem, hp.1, hp.2, hperm, nodup_of_perm_cons_not_mem hI hperm,
        List.eraseP_sublist _, hlen⟩
  · cases h : incomes.find? (fun r : Income => decide (r.id = id ∧ r.userId = userId)) with
    | none => simp
    | some r => simp

/-- The refusal of C6 on the sample data: `u2` asks to delete expense `e1` of `u1`. -/
theorem delete_only_own_record_witness :
    (fun _ : String => true) "e1" = true ∧ (fun _ : String => true) "u2" = true
    ∧ (sampleExpenses.map Expense.id).Nodup ∧ (sampleIncomes.map Income.id).Nodup
    ∧ (∃ r ∈ sampleExpenses, r.id = "e1" ∧ r.userId ≠ "u2")
    ∧ (deleteExpense (fun _ => true) sampleExpenses "u2" "e1").1.status = 404
    ∧ (deleteExpense (fun _ => true) sampleExpenses "u2" "e1").2 = sampleExpenses :=
  ⟨rfl, rfl, by decide, by decide, by decide,
    (delete_only_own_record (fun _ => true) sampleExpenses sampleIncomes "u2" "e1" rfl rfl
      (by decide) (by decide)).1 (by decide)⟩

/-! ## Grouping by day and pagination -/

theorem length_filter_eq_count {α β : Type} [DecidableEq β] (f : α → β) (k : β)
    (xs : List α) : (xs.filter (fun r => f r = k)).length = (xs.map f).count k := by
  induction xs with
  | nil => simp
  | cons x xs ih =>
    by_cases h : f x = k <;> simp [List.filter_cons, h, ih, List.count_cons]

theorem transactionCount_groupByDate {α : Type} (dateToString : Int → String)
    (date : α → Int) (matched : List α) :
    transactionCount (groupByDate dateToString date matched) = matched.length := by
  unfold transactionCount groupByDate
  rw [List.map_map]
  have hperm := List.perm_insertionSort KeyDesc
    ((matched.map (fun r => dateToString (date r))).dedup)
  rw [(hperm.map _).sum_eq]
  have hfun : ((fun g : Group α => g.docs.length) ∘ fun k =>
      (⟨k, matched.filter (fun r => dateToString (date r) = k)⟩ : Group α))
      = fun k => (matched.map (fun r => dateToString (date r))).count k := by
    funext k
    exact length_filter_eq_count (fun r => dateToString (date r)) k matched
  rw [hfun, List.sum_map_count_dedup_eq_length, List.length_map]

theorem groupByDate_sorted {α : Type} (dateToString : Int → String) (date : α → Int)
    (matched : List α) :
    ((groupByDate dateToString date matched).map Group._id).Sorted KeyDesc := by
  unfold groupByDate
  rw [List.map_map]
  have hid : (Group._id ∘ fun k =>
      (⟨k, matched.filter (fun r => dateToString (date r) = k)⟩ : Group α)) = id := by
    funext k
    rfl
  rw [hid, List.map_id]
  exact List.sorted_insertionSort _ _

theorem slice_page {α : Type} (xs : List α) (page limit : Int) (hpage : 1 ≤ page)
    (hlimit : 1 ≤ limit) :
    slice xs ((page - 1) * limit) (page * limit)
      = (xs.drop ((page - 1) * limit).toNat).take limit.toNat := by
  have hs : 0 ≤ (page - 1) * limit := mul_nonneg (by omega) (by omega)
  have he : page * limit = (page - 1) * limit + limit := by ring
  have hs' : ¬ (page - 1) * limit < 0 := by omega
  have he' : ¬ page * limit < 0 := by omega
  have hsum : (page * limit).toNat = ((page - 1) * limit).toNat + limit.toNat := by
    rw [he]
    omega
  unfold slice relativeIndex
  simp only [hs', he', if_false, hsum]
  generalize ((page - 1) * limit).toNat = s
  generalize limit.toNat = l
  by_cases hlen : xs.length ≤ s
  · rw [min_eq_right hlen, List.drop_eq_nil_of_le hlen, List.drop_eq_nil_of_le (le_refl _)]
    simp
  · rw [min_eq_left (by omega : s ≤ xs.length), List.take_eq_take, List.length_drop]
    omega

theorem transactionCount_sublist {α : Type} {gs hs : List (Group α)} (h : gs.Sublist hs) :
    transactionCount gs ≤ transactionCount hs :=
  (h.map _).sum_le_sum (fun _ _ => Nat.zero_le _)

theorem slice_sublist {α : Type} (xs : List α) (start stop : Int) :
    (slice xs start stop).Sublist xs :=
  (List.take_sublist _ _).trans (List.drop_sublist _ _)

theorem getExpensesByDate_ok (objectId : String → Bool) (startOfDay endOfDay : Int → Int)
    (dateToString : Int → String) (expenses : List Expense) (userId : String) (query : Query)
    (huser : objectId userId = true) (htrip : ∀ t ∈ query.tripId, objectId t = true) :
    getExpensesByDate objectId startOfDay endOfDay dateToString expenses userId query
      = .ok (paginate (groupedExpenses startOfDay endOfDay dateToString expenses userId
          (query.tripId.filter (fun t => decide (t ≠ ""))) query.date)
          (query.page.getD 1) (query.limit.getD 1)) := by
  have hany : (query.tripId.filter (fun t => decide (t ≠ ""))).any (fun t => !objectId t)
      = false := by
    cases hq : query.tripId with
    | none => rfl
    | some t =>
      have ht : objectId t = true := htrip t (by simp [hq])
      by_cases hne : t = ""
      · simp [Option.filter, hne]
      · simp [Option.filter, hne, ht]
  simp only [getExpensesByDate, huser, hany, Bool.not_true, Bool.false_eq_true, if_false]

theorem getIncomesByDate_ok (objectId : String → Bool) (startOfDay endOfDay : Int → Int)
    (dateToString : Int → String) (now : Int) (incomes : List Income) (userId : String)
    (query : Query) (huser : objectId userId = true) :
    getIncomesByDate objectId startOfDay endOfDay dateToString now incomes userId query
      = .ok (paginate (groupedIncomes startOfDay endOfDay dateToString now incomes userId
          query.date) (query.page.getD 1) (query.limit.getD 1)) := by
  simp only [getIncomesByDate, huser, Bool.not_true, Bool.false_eq_true, if_false]

theorem paginate_data_count {α : Type} (grouped : List (Group α)) (page limit : Int) :
    transactionCount (paginate grouped page limit).data ≤ transactionCount grouped :=
  transactionCount_sublist (slice_sublist _ _ _)

theorem paginate_first_page_all {α : Type} (grouped : List (Group α)) (limit : Int)
    (hlimit : ((paginate grouped 1 limit).totalPages : Int) ≤ limit) :
    (paginate grouped 1 limit).data = grouped := by
  have htotal : (paginate grouped 1 limit).totalPages = lengthOrOne grouped := rfl
  rw [htotal] at hlimit
  have h1 : 1 ≤ limit := by
    unfold lengthOrOne at hlimit
    split_ifs at hlimit <;> omega
  have hlen : grouped.length ≤ limit.toNat := by
    unfold lengthOrOne at hlimit
    split_ifs at hlimit <;> omega
  show slice grouped ((1 - 1) * limit) (1 * limit) = grouped
  rw [slice_page grouped 1 limit (le_refl 1) h1]
  simp [List.take_of_length_le hlen]

/-- C7 fails as stated. With the default page and limit, `u1`'s two expenses on two
days come back as one group of one transaction; and `u1`'s only income, dated the day
before the current one, does not come back at all. -/
theorem grouped_count_counterexample :
    getExpensesByDate (fun _ => true) utcStartOfDay utcEndOfDay sampleDateToString
        twoDayExpenses "u1" ⟨none, none, none, none⟩
      = .ok ⟨[⟨"1970-01-02", [⟨"e2", "u1", none, "bus", "travel", "ticket", 20, 90000000⟩]⟩],
          2, 1⟩
    ∧ transactionCount
        [(⟨"1970-01-02", [⟨"e2", "u1", none, "bus", "travel", "ticket", 20, 90000000⟩]⟩ :
          Group Expense)] = 1
    ∧ (twoDayExpenses.filter (fun r => r.userId = "u1")).length = 2
    ∧ getIncomesByDate (fun _ => true) utcStartOfDay utcEndOfDay sampleDateToString 90000000
        oneIncome "u1" ⟨none, none, none, none⟩ = .ok ⟨[], 1, 1⟩
    ∧ transactionCount ([] : List (Group Income)) = 0
    ∧ (oneIncome.filter (fun r => r.userId = "u1")).length = 1 := by
  decide

/-- C7, amended: for an unfiltered query, the groups before pagination (`grouped`) hold
together as many transactions as the user has Expense records; for incomes, where a
query without date is scoped to the current day, as many as the user has Income records
dated within the current day. The `data` returned is the page of those groups selected
by `page` and `limit`, so its transactions number at most that many, and exactly that
many when `page` is 1 and `limit` is at least `totalPages`. -/
theorem grouped_count_unfiltered (objectId : String → Bool) (startOfDay endOfDay : Int → Int)
    (dateToString : Int → String) (now : Int) (expenses : List Expense)
    (incomes : List Income) (userId : String) (page limit : Option Int)
    (huser : objectId userId = true) :
    transactionCount
        (groupedExpenses startOfDay endOfDay dateToString expenses userId none none)
      = (expenses.filter (fun r => r.userId = userId)).length
    ∧ (∃ body, getExpensesByDate objectId startOfDay endOfDay dateToString expenses userId
          ⟨page, limit, none, none⟩ = .ok body
        ∧ body.data.Sublist
            (groupedExpenses startOfDay endOfDay dateToString expenses userId none none)
        ∧ transactionCount body.data ≤ (expenses.filter (fun r => r.userId = userId)).length
        ∧ (page.getD 1 = 1 → (body.totalPages : Int) ≤ limit.getD 1 →
            transactionCount body.data
              = (expenses.filter (fun r => r.userId = userId)).length))
    ∧ transactionCount
        (groupedIncomes startOfDay endOfDay dateToString now incomes userId none)
      = (incomes.filter (fun r => r.userId = userId
          ∧ startOfDay now ≤ r.date ∧ r.date ≤ endOfDay (startOfDay now))).length
    ∧ (∃ body, getIncomesByDate objectId startOfDay endOfDay dateToString now incomes userId
          ⟨page, limit, none, none⟩ = .ok body
        ∧ body.data.Sublist
            (groupedIncomes startOfDay endOfDay dateToString now incomes userId none)
        ∧ transactionCount body.data ≤ (incomes.filter (fun r => r.userId = userId
            ∧ startOfDay now ≤ r.date ∧ r.date ≤ endOfDay (startOfDay now))).length
        ∧ (page.getD 1 = 1 → (body.totalPages : Int) ≤ limit.getD 1 →
            transactionCount body.data
              = (incomes.filter (fun r => r.userId = userId
                ∧ startOfDay now ≤ r.date ∧ r.date ≤ endOfDay (startOfDay now))).length)) := by
  have hE : transactionCount
      (groupedExpenses startOfDay endOfDay dateToString expenses userId none none)
      = (expenses.filter (fun r => r.userId = userId)).length := by
    unfold groupedExpenses
    rw [transactionCount_groupByDate]
    unfold matchExpenses
    congr 1
    apply List.filter_congr
    intro r _
    simp
  have hI : transactionCount
      (groupedIncomes startOfDay endOfDay dateToString now incomes userId none)
      = (incomes.filter (fun r => r.userId = userId
          ∧ startOfDay now ≤ r.date ∧ r.date ≤ endOfDay (startOfDay now))).length := by
    unfold groupedIncomes
    rw [transactionCount_groupByDate]
    unfold matchIncomes
    congr 1
    apply List.filter_congr
    intro r _
    simp
  refine ⟨hE, ⟨_, getExpensesByDate_ok _ _ _ _ _ _ _ huser (by simp), ?_, ?_, ?_⟩,
    hI, ⟨_, getIncomesByDate_ok _ _ _ _ _ _ _ _ huser, ?_, ?_, ?_⟩⟩
  · exact slice_sublist _ _ _
  · rw [← hE]
    exact paginate_data_count _ _ _
  · intro hp hl
    rw [← hE]
    simp only [Option.filter] at hl ⊢
    rw [hp] at hl ⊢
    rw [paginate_first_page_all _ _ hl]
  · exact slice_sublist _ _ _
  · rw [← hI]
    exact paginate_data_count _ _ _
  · intro hp hl
    rw [← hI]
    simp only at hl ⊢
    rw [hp] at hl ⊢
    rw [paginate_first_page_all _ _ hl]

/-- The amended C7 on `u1`'s two expenses of two days: page 1 with limit 2 returns both
groups, holding the two transactions. -/
theorem grouped_count_unfiltered_witness :
    (fun _ : String => true) "u1" = true
    ∧ ∃ body, getExpensesByDate (fun _ => true) utcStartOfDay utcEndOfDay sampleDateToString
          twoDayExpenses "u1" ⟨some 1, some 2, none, none⟩ = .ok body
        ∧ transactionCount body.data = 2 := by
  refine ⟨rfl, ?_⟩
  obtain ⟨body, hb, -, -, heq⟩ := (grouped_count_unfiltered (fun _ => true) utcStartOfDay
    utcEndOfDay sampleDateToString 0 twoDayExpenses oneIncome "u1" (some 1) (some 2) rfl).2.1
  have hpages : body.totalPages = 2 := by
    have hval : getExpensesByDate (fun _ => true) utcStartOfDay utcEndOfDay sampleDateToString
        twoDayExpenses "u1" ⟨some 1, some 2, none, none⟩
        = .ok ⟨[⟨"1970-01-02", [⟨"e2", "u1", none, "bus", "travel", "ticket", 20, 90000000⟩]⟩,
            ⟨"1970-01-01", [⟨"e1", "u1", none, "meal", "food", "lunch", 50, 3600000⟩]⟩],
          2, 1⟩ := by decide
    rw [hval] at hb
    injection hb with hb
    rw [← hb]
  refine ⟨body, hb, ?_⟩
  rw [heq rfl (by rw [hpages]; decide)]
  decide

/-- C8: for `page >= 1` and `limit >= 1` (and castable ids), `getExpensesByDate` and
`getIncomesByDate` return as `data` the groups of `grouped`, the list of day groups in
descending key order, at the 0-based positions `(page-1)*limit` up to but excluding
`page*limit`: whole groups of that list, at most `limit` of them, none past its end; and
they return `totalPages` equal to the number of groups, or 1 when there is none, hence
at least 1 and the same for every `limit`. -/
theorem pagination_by_groups (objectId : String → Bool) (startOfDay endOfDay : Int → Int)
    (dateToString : Int → String) (now : Int) (expenses : List Expense)
    (incomes : List Income) (userId : String) (date : Option Int) (tripId : Option String)
    (page limit : Int) (huser : objectId userId = true)
    (htrip : ∀ t ∈ tripId, objectId t = true) (hpage : 1 ≤ page) (hlimit : 1 ≤ limit) :
    (∃ grouped body,
        grouped = groupedExpenses startOfDay endOfDay dateToString expenses userId
          (tripId.filter (fun t => decide (t ≠ ""))) date
        ∧ (grouped.map Group._id).Sorted KeyDesc
        ∧ getExpensesByDate objectId startOfDay endOfDay dateToString expenses userId
            ⟨some page, some limit, date, tripId⟩ = .ok body
        ∧ body.data = (grouped.drop ((page - 1) * limit).toNat).take limit.toNat
        ∧ (∀ i : Nat, body.data[i]?
            = if i < limit.toNat then grouped[((page - 1) * limit).toNat + i]? else none)
        ∧ body.data.Sublist grouped
        ∧ body.data.length ≤ limit.toNat
        ∧ (grouped.length ≤ ((page - 1) * limit).toNat → body.data = [])
        ∧ body.totalPages = (if grouped.length = 0 then 1 else grouped.length)
        ∧ 1 ≤ body.totalPages
        ∧ body.currentPage = page)
    ∧ (∃ grouped body,
        grouped = groupedIncomes startOfDay endOfDay dateToString now incomes userId date
        ∧ (grouped.map Group._id).Sorted KeyDesc
        ∧ getIncomesByDate objectId startOfDay endOfDay dateToString now incomes userId
            ⟨some page, some limit, date, tripId⟩ = .ok body
        ∧ body.data = (grouped.drop ((page - 1) * limit).toNat).take limit.toNat
        ∧ (∀ i : Nat, body.data[i]?
            = if i < limit.toNat then grouped[((page - 1) * limit).toNat + i]? else none)
        ∧ body.data.Sublist grouped
        ∧ body.data.length ≤ limit.toNat
        ∧ (grouped.length ≤ ((page - 1) * limit).toNat → body.data = [])
        ∧ body.totalPages = (if grouped.length = 0 then 1 else grouped.length)
        ∧ 1 ≤ body.totalPages
        ∧ body.currentPage = page) := by
  have key : ∀ {α : Type} (grouped : List (Group α)),
      (paginate grouped page limit).data
          = (grouped.drop ((page - 1) * limit).toNat).take limit.toNat
        ∧ (∀ i : Nat, (paginate grouped page limit).data[i]?
            = if i < limit.toNat then grouped[((page - 1) * limit).toNat + i]? else none)
        ∧ (paginate grouped page limit).data.Sublist grouped
        ∧ (paginate grouped page limit).data.length ≤ limit.toNat
        ∧ (grouped.length ≤ ((page - 1) * limit).toNat → (paginate grouped page limit).data = [])
        ∧ (paginate grouped page limit).totalPages
            = (if grouped.length = 0 then 1 else grouped.length)
        ∧ 1 ≤ (paginate grouped page limit).totalPages
        ∧ (paginate grouped page limit).currentPage = page := by
    intro α grouped
    have hdata : (paginate grouped page limit).data
        = (grouped.drop ((page - 1) * limit).toNat).take limit.toNat :=
      slice_page grouped page limit hpage hlimit
    refine ⟨hdata, ?_, slice_sublist _ _ _, ?_, ?_, rfl, ?_, rfl⟩
    · intro i
      rw [hdata, List.getElem?_take, List.getElem?_drop]
    · rw [hdata]
      exact List.length_take_le _ _
    · intro hlen
      rw [hdata, List.drop_eq_nil_of_le hlen]
      simp
    · show 1 ≤ lengthOrOne grouped
      unfold lengthOrOne
      split_ifs <;> omega
  refine ⟨⟨_, _, rfl, groupByDate_sorted _ _ _,
      getExpensesByDate_ok _ _ _ _ _ _ _ huser htrip, key _⟩,
    ⟨_, _, rfl, groupByDate_sorted _ _ _, getIncomesByDate_ok _ _ _ _ _ _ _ _ huser, key _⟩⟩

/-- The pages of C8 on `u1`'s two expenses of two days with limit 1: page 2 holds the
older group alone, and `totalPages` is 2. -/
theorem pagination_by_groups_witness :
    (fun _ : String => true) "u1" = true ∧ (∀ t ∈ (none : Option String),
      (fun _ : String => true) t = true) ∧ (1 : Int) ≤ 2 ∧ (1 : Int) ≤ 1
    ∧ ∃ body, getExpensesByDate (fun _ => true) utcStartOfDay utcEndOfDay sampleDateToString
          twoDayExpenses "u1" ⟨some 2, some 1, none, none⟩ = .ok body
        ∧ body.data.length ≤ 1 ∧ 1 ≤ body.totalPages ∧ body.currentPage = 2 := by
  refine ⟨rfl, by simp, by decide, by decide, ?_⟩
  obtain ⟨⟨grouped, body, -, -, hb, -, -, -, hlen, -, -, hpages, hcur⟩, -⟩ :=
    pagination_by_groups (fun _ => true) utcStartOfDay utcEndOfDay sampleDateToString 0
      twoDayExpenses oneIncome "u1" none none 2 1 rfl (by simp) (by decide) (by decide)
  exact ⟨body, hb, hlen, hpages, hcur⟩

/-! ## The trip channel -/

theorem not_mem_members {st : Channel} {room : String} {sid : Nat}
    (h : (room, sid) ∉ st.rooms) : sid ∉ st.members room := by
  unfold Channel.members
  intro hmem
  simp only [List.mem_map, List.mem_filter, decide_eq_true_eq] at hmem
  obtain ⟨m, ⟨hm, hroom⟩, hsid⟩ := hmem
  apply h
  have : m = (room, sid) := Prod.ext hroom hsid
  rw [← this]
  exact hm

theorem mem_rooms_join (st : Channel) (room : String) (socket : Socket) :
    (room, socket.id) ∈ (st.join room socket).rooms := by
  unfold Channel.join
  split_ifs with h
  · exact h
  · simp

theorem tripMessage_deliveries (tripMessageModel : String → String → String → Option TripMessage)
    (st : Channel) (sender : Socket) (tripId : String) (message : Option String)
    (sid : Nat) (payload : PopulatedMessage)
    (h : (sid, ServerEvent.tripMessage payload)
      ∈ (tripMessage tripMessageModel st sender (some tripId) message).2) :
    sid ∈ st.members (tripRoom tripId) := by
  unfold tripMessage at h
  by_cases ht : tripId = ""
  · have h1 : (some tripId).filter (fun t => decide (t ≠ "")) = none := by
      simp [Option.filter, ht]
    rw [h1] at h
    simp at h
  · have h1 : (some tripId).filter (fun t => decide (t ≠ "")) = some tripId := by
      simp [Option.filter, ht]
    rw [h1] at h
    generalize message.filter (fun m => decide (m ≠ "")) = filtered at h
    cases filtered with
    | none => simp at h
    | some m =>
      simp only at h
      generalize tripMessageModel tripId sender.userId m = created at h
      cases created with
      | none => simp at h
      | some msg =>
        simp only [List.mem_map, Prod.mk.injEq] at h
        obtain ⟨x, hx, hxs, -⟩ := h
        exact hxs ▸ hx

/-- C1 fails as stated in its last clause. Socket 5 of `bob` is in the room of `t1` from
an earlier join and `t1` is now private: the join handler answers "Access denied" and
leaves the state as it was, the room membership of socket 5 included (the handlers never
take a socket out of a room), so the next message of `alice` to `t1` is broadcast to
socket 5 as well. -/
theorem joinTrip_denied_still_member :
    joinTrip (fun _ => true) staleChannel ⟨5, "bob"⟩ "t1"
      = (staleChannel, [(5, .error "Access denied")])
    ∧ (tripMessage (fun trip user message => some ⟨"m1", trip, user, message⟩)
          (joinTrip (fun _ => true) staleChannel ⟨5, "bob"⟩ "t1").1
          ⟨1, "alice"⟩ (some "t1") (some "hi")).2
      = [(1, .tripMessage ⟨⟨"m1", "t1", "alice", "hi"⟩,
            some ⟨"alice", "Alice", "alice@example.org"⟩⟩),
         (5, .tripMessage ⟨⟨"m1", "t1", "alice", "hi"⟩,
            some ⟨"alice", "Alice", "alice@example.org"⟩⟩)] := by
  decide

/-- C1, amended: for a castable id of an existing trip, the join handler lets the
connection through exactly when its user is the trip's creator, or is listed in the
participants and the visibility is not "private". When it does, the connection is put
into the room `trip:<tripId>` and `joined` is emitted to it; otherwise the state, rooms
included, is left as it was (no room is joined and none is left) and the only event is
the error "Access denied", so a connection that was not already in the room receives no
broadcast of a later message to that trip. -/
theorem joinTrip_access (castObjectId : String → Bool) (st : Channel) (socket : Socket)
    (tripId : String) (trip : Trip) (hcast : castObjectId tripId = true)
    (hfind : st.trips.find? (fun t => decide (t.id = tripId)) = some trip) :
    ((trip.userId = socket.userId
          ∨ (socket.userId ∈ trip.participants ∧ trip.visibility ≠ "private")) →
        joinTrip castObjectId st socket tripId
            = (st.join (tripRoom tripId) socket, [(socket.id, .joined tripId)])
          ∧ ("trip:" ++ tripId, socket.id) ∈ (joinTrip castObjectId st socket tripId).1.rooms)
    ∧ (¬ (trip.userId = socket.userId
          ∨ (socket.userId ∈ trip.participants ∧ trip.visibility ≠ "private")) →
        joinTrip castObjectId st socket tripId = (st, [(socket.id, .error "Access denied")])
          ∧ (("trip:" ++ tripId, socket.id) ∉ st.rooms →
              ∀ (tripMessageModel : String → String → String → Option TripMessage)
                (sender : Socket) (message : Option String) (payload : PopulatedMessage),
                (socket.id, ServerEvent.tripMessage payload)
                  ∉ (tripMessage tripMessageModel (joinTrip castObjectId st socket tripId).1
                      sender (some tripId) message).2))
    ∧ ((socket.id, ServerEvent.joined tripId) ∈ (joinTrip castObjectId st socket tripId).2
        ↔ (trip.userId = socket.userId
          ∨ (socket.userId ∈ trip.participants ∧ trip.visibility ≠ "private"))) := by
  have hgrant : (trip.userId = socket.userId
        ∨ (socket.userId ∈ trip.participants ∧ trip.visibility ≠ "private")) →
      joinTrip castObjectId st socket tripId
        = (st.join (tripRoom tripId) socket, [(socket.id, .joined tripId)]) := by
    intro h
    unfold joinTrip
    simp only [hcast, hfind, Bool.not_true, Bool.false_eq_true, if_false]
    rw [if_neg]
    rcases h with h | ⟨h1, h2⟩
    · simp [h]
    · simp [h1, h2]
  have hdeny : ¬ (trip.userId = socket.userId
        ∨ (socket.userId ∈ trip.participants ∧ trip.visibility ≠ "private")) →
      joinTrip castObjectId st socket tripId
        = (st, [(socket.id, .error "Access denied")]) := by
    intro h
    unfold joinTrip
    simp only [hcast, hfind, Bool.not_true, Bool.false_eq_true, if_false]
    rw [if_pos]
    rw [not_or, not_and_or, not_not] at h
    obtain ⟨h1, h2 | h2⟩ := h
    · simp [h1, h2]
    · simp [h1, h2]
  refine ⟨fun h => ⟨hgrant h, ?_⟩, fun h => ⟨hdeny h, ?_⟩, ?_⟩
  · rw [hgrant h]
    exact mem_rooms_join st (tripRoom tripId) socket
  · intro hroom tripMessageModel sender message payload hmem
    rw [hdeny h] at hmem
    exact not_mem_members hroom (tripMessage_deliveries _ _ _ _ _ _ _ hmem)
  · constructor
    · intro hmem
      by_contra h
      rw [hdeny h] at hmem
      simp at hmem
    · intro h
      rw [hgrant h]
      simp

/-- The amended C1 on the sample channel, in both branches: `bob`, a participant of the
shared trip `t2`, is let into its room; `mallory`, a stranger to the private trip `t1`
and outside its room, is refused and is not reached by `alice`'s next message to `t1`. -/
theorem joinTrip_access_witness :
    ((fun _ : String => true) "t2" = true
      ∧ sampleChannel.trips.find? (fun t => decide (t.id = "t2"))
          = some ⟨"t2", "alice", ["bob"], "shared"⟩
      ∧ ("alice" = "bob" ∨ ("bob" ∈ ["bob"] ∧ "shared" ≠ "private"))
      ∧ joinTrip (fun _ => true) sampleChannel ⟨3, "bob"⟩ "t2"
          = (sampleChannel.join (tripRoom "t2") ⟨3, "bob"⟩, [(3, .joined "t2")])
      ∧ ("trip:" ++ "t2", 3)
          ∈ (joinTrip (fun _ => true) sampleChannel ⟨3, "bob"⟩ "t2").1.rooms)
    ∧ ((fun _ : String => true) "t1" = true
      ∧ sampleChannel.trips.find? (fun t => decide (t.id = "t1"))
          = some ⟨"t1", "alice", ["bob"], "private"⟩
      ∧ ¬ ("alice" = "mallory" ∨ ("mallory" ∈ ["bob"] ∧ "private" ≠ "private"))
      ∧ ("trip:" ++ "t1", 2) ∉ sampleChannel.rooms
      ∧ joinTrip (fun _ => true) sampleChannel ⟨2, "mallory"⟩ "t1"
          = (sampleChannel, [(2, .error "Access denied")])
      ∧ (2, ServerEvent.tripMessage ⟨⟨"m1", "t1", "alice", "hi"⟩,
            some ⟨"alice", "Alice", "alice@example.org"⟩⟩)
          ∉ (tripMessage (fun trip user message => some ⟨"m1", trip, user, message⟩)
              (joinTrip (fun _ => true) sampleChannel ⟨2, "mallory"⟩ "t1").1
              ⟨1, "alice"⟩ (some "t1") (some "hi")).2) :=
  ⟨⟨rfl, by decide, by decide,
      (joinTrip_access (fun _ => true) sampleChannel ⟨3, "bob"⟩ "t2"
        ⟨"t2", "alice", ["bob"], "shared"⟩ rfl (by decide)).1 (by decide)⟩,
    ⟨rfl, by decide, by decide, by decide,
      ((joinTrip_access (fun _ => true) sampleChannel ⟨2, "mallory"⟩ "t1"
        ⟨"t1", "alice", ["bob"], "private"⟩ rfl (by decide)).2.1 (by decide)).1,
      ((joinTrip_access (fun _ => true) sampleChannel ⟨2, "mallory"⟩ "t1"
        ⟨"t1", "alice", ["bob"], "private"⟩ rfl (by decide)).2.1 (by decide)).2 (by decide)
        (fun trip user message => some ⟨"m1", trip, user, message⟩) ⟨1, "alice"⟩ (some "hi")
        ⟨⟨"m1", "t1", "alice", "hi"⟩, some ⟨"alice", "Alice", "alice@example.org"⟩⟩⟩⟩

/-- C3, evaluated: `mallory` is neither creator nor participant of `alice`'s private trip
`t1`, and the join handler refuses her; her `trip-message` for `t1` is stored all the
same and broadcast to `alice`'s socket in the room. -/
theorem tripMessage_unchecked_author :
    joinTrip (fun _ => true) sampleChannel ⟨2, "mallory"⟩ "t1"
      = (sampleChannel, [(2, .error "Access denied")])
    ∧ tripMessage (fun trip user message => some ⟨"m1", trip, user, message⟩) sampleChannel
        ⟨2, "mallory"⟩ (some "t1") (some "hi")
      = (⟨sampleChannel.trips, sampleChannel.users, [⟨"m1", "t1", "mallory", "hi"⟩],
            sampleChannel.rooms⟩,
          [(1, .tripMessage ⟨⟨"m1", "t1", "mallory", "hi"⟩,
            some ⟨"mallory", "Mallory", "mallory@example.org"⟩⟩)]) := by
  decide

end ExpenseTracker
